import Mathlib

/-!
Verification of the NutritionTracker meal-logging pipeline.

Shallow embedding of the Python sources:
  * `processor_lambda.py` — idempotency ledger check, vision extraction,
    mention parsing, nutrition aggregation, orchestration, queue handler;
  * `lambda_layer/python/common/utils.py` — `send_telegram_message`;
  * `reporter_lambda.py` — daily rollup.

Numbers that are Python floats are modelled as rationals (`ℚ`); external
calls (DynamoDB, HTTP, Gemini, Google Sheets) are modelled as oracle data
supplied in an environment record, and exceptions as `Except` values.
-/

namespace NutritionTracker

/-! ### Python string primitives

Helpers mirroring the Python `str` operations the source uses.  Whitespace
and digit classification use the ASCII subset (`Char.isWhitespace`,
`Char.isDigit`); the sources only ever handle ASCII model output.
-/

/-- Python `str.strip()` with no argument: drop leading and trailing
whitespace. -/
def pyStrip (s : String) : String :=
  String.mk (((s.data.dropWhile Char.isWhitespace).reverse.dropWhile
    Char.isWhitespace).reverse)

/-- Python `str.isdigit()` (ASCII): nonempty and all characters digits. -/
def pyIsDigit (s : String) : Bool :=
  !s.isEmpty && s.data.all Char.isDigit

/-- Accumulator-based whitespace tokenizer: `acc` holds the characters of
the token in progress, reversed. -/
def splitWsAux : List Char → List Char → List String
  | [], acc => if acc.isEmpty then [] else [String.mk acc.reverse]
  | c :: cs, acc =>
    if c.isWhitespace then
      if acc.isEmpty then splitWsAux cs []
      else String.mk acc.reverse :: splitWsAux cs []
    else splitWsAux cs (c :: acc)

/-- Python `str.split()` with no argument: split on whitespace runs,
discarding empty fields. -/
def pySplitWs (s : String) : List String :=
  splitWsAux s.data []

/-- Python `str.upper()` (ASCII). -/
def pyUpper (s : String) : String :=
  String.mk (s.data.map Char.toUpper)

/-- Value of a digit run. -/
def digitsVal (ds : List Char) : Nat :=
  ds.foldl (fun a c => a * 10 + (c.toNat - 48)) 0

/-- Decimal value of a character run when it is all digits and nonempty. -/
def digitsToNat (cs : List Char) : Option Nat :=
  if !cs.isEmpty && cs.all Char.isDigit then some (digitsVal cs) else none

/-- Python `int(s)` on an already-stripped string: optional sign followed by
decimal digits (underscore separators and non-ASCII digits are not used by
the modelled inputs).  `none` models `ValueError`. -/
def pyInt (s : String) : Option Int :=
  match s.data with
  | '-' :: rest => (digitsToNat rest).map (fun n => -(n : Int))
  | '+' :: rest => (digitsToNat rest).map (fun n => (n : Int))
  | cs => (digitsToNat cs).map (fun n => (n : Int))

/-- Python list indexing `xs[i]` with an `Int` index: negative indices count
from the end; `none` models `IndexError`. -/
def pyListGet {α : Type} (xs : List α) (i : Int) : Option α :=
  if 0 ≤ i then xs.get? i.toNat
  else if 0 ≤ (xs.length : Int) + i then xs.get? ((xs.length : Int) + i).toNat
  else none

/-! ### Mention parsing (`_calculate_meal_nutrition`, lines 205–214)

The source extracts the first regex match of `\((\d+)g\)` in the raw
mention, takes the integer inside as the weight, truncates the string at
the match start (then `.strip()`), and finally drops a leading purely
numeric whitespace-delimited token.
-/

/-- If the regex `\((\d+)g\)` matches at the head of `cs`, return the
weight and the length of the matched text. -/
def weightMatchHere (cs : List Char) : Option (Nat × Nat) :=
  match cs with
  | '(' :: rest =>
    let ds := rest.takeWhile Char.isDigit
    let rest' := rest.dropWhile Char.isDigit
    if ds.isEmpty then none
    else
      match rest' with
      | 'g' :: ')' :: _ => some (digitsVal ds, ds.length + 3)
      | _ => none
  | _ => none

/-- `re.search`: position, weight and length of the first `\((\d+)g\)`
match, scanning left to right. -/
def findWeightFrom : List Char → Nat → Option (Nat × Nat × Nat)
  | [], _ => none
  | c :: cs, i =>
    match weightMatchHere (c :: cs) with
    | some (w, len) => some (i, w, len)
    | none => findWeightFrom cs (i + 1)

/-- Drop the first whitespace-delimited token when it is purely numeric
(`food_name_parts[0].isdigit()`); joining the remaining tokens with single
spaces, exactly as `' '.join(food_name_parts[1:])` does. -/
def dropLeadingNumericToken (s : String) : String :=
  match pySplitWs s with
  | [] => s
  | p :: rest => if pyIsDigit p then String.intercalate " " rest else s

/-- Parse one raw mention into `(cleaned_name, weight_grams)`
(`_calculate_meal_nutrition`, lines 205–214): weight from the first
`(<digits>g)` pattern or `0`; name is the text *before* the match,
stripped, with a leading numeric token dropped. -/
def parseMention (item : String) : String × Nat :=
  match findWeightFrom item.data 0 with
  | none => (dropLeadingNumericToken item, 0)
  | some (i, w, _len) =>
    (dropLeadingNumericToken (pyStrip (String.mk (item.data.take i))), w)

/-! ### Data model -/

/-- One entry of a food's `foodNutrients` list as returned by FoodData
Central: the source reads `nutrientName`, `value` (default `0` when
absent) and `unitName` (default `''`) with `dict.get`. -/
structure FoodNutrient where
  nutrientName : Option String
  value : Option ℚ
  unitName : Option String
deriving DecidableEq, Repr

/-- One food record of an FDC search result; the source reads `fdcId`,
`description` and `foodNutrients`. -/
structure Food where
  fdcId : Nat
  description : Option String
  foodNutrients : List FoodNutrient
deriving DecidableEq, Repr

/-- The `totals` dict of `_calculate_meal_nutrition`, all four fields
initialized to `0`. -/
structure MealTotals where
  calories : ℚ
  protein : ℚ
  carbs : ℚ
  fat : ℚ
deriving DecidableEq, Repr

/-- A DynamoDB item of the idempotency table: the `status` attribute (read
with `item.get('status')`, so possibly absent) and the `ttl` attribute. -/
structure LedgerRecord where
  status : Option String
  ttl : Option Nat
deriving DecidableEq, Repr

/-- A parsed SQS message body (`process_meal_from_message` reads these
three keys). -/
structure MessageBody where
  idempotency_key : String
  chat_id : Int
  file_id : String
deriving DecidableEq, Repr

/-- Python exceptions the pipeline distinguishes: a boto3 `ClientError`
carrying its error code, a `requests.RequestException`, a `ValueError`,
and any other exception. -/
inductive PyExc
  | clientError (code : String)
  | requestException
  | valueError
  | otherError
deriving DecidableEq, Repr

/-- The Telegram messages the processor sends.  The fixed texts are
abstracted by name; `result` carries the data the f-string of
`_format_result_message` renders. -/
inductive Msg
  /-- "Sorry, I couldn't identify any food in the image. Please try another one." -/
  | noFood
  /-- "Sorry, I couldn't analyze the image. It might be an unsupported format or corrupted." -/
  | cantAnalyze
  /-- The itemized summary built by `_format_result_message`. -/
  | result (items : List String) (totals : MealTotals)
  /-- "Sorry, there was an error processing your meal details." -/
  | processingError
deriving DecidableEq, Repr

/-- Observable side effects of one processor run, in program order.
`putProcessing` records the conditional insert attempt; `ok := false`
means the conditional check failed and nothing was written. -/
inductive Effect
  | getItem
  | putProcessing (rec : LedgerRecord) (ok : Bool)
  | getImage (fileId : String)
  | vision
  | lookup (foodName : String)
  | appendSheet (timestamp : String) (itemsText : String) (totals : MealTotals)
  | send (chatId : Int) (msg : Msg)
  | updateCompleted (key : String)
deriving DecidableEq, Repr

/-! ### Idempotency ledger (`_check_and_update_idempotency`, lines 144–177)

The DynamoDB interactions are modelled by oracle data: the result of
`get_item`, the table state at the moment the conditional `put_item`
executes (a concurrent insert between the get and the put makes the
conditional check fail), and an optional injected `ClientError` code for
the put (storage faults other than the conditional conflict).
-/

/-- Oracle data for one `_check_and_update_idempotency` call. -/
structure LedgerEnv where
  /-- Result of `table.get_item`: the item (or absence), or a `ClientError` code. -/
  getRes : Except String (Option LedgerRecord)
  /-- Table state for this key when the conditional `put_item` runs. -/
  atPut : Option LedgerRecord
  /-- An injected `ClientError` code raised by `put_item` for reasons other
  than the conditional check (e.g. a throttling error). -/
  putFault : Option String
  /-- `int(time.time())`. -/
  now : Nat
deriving Repr

/-- The record the conditional insert writes: status `PROCESSING`, 24-hour
TTL (`int(time.time()) + 86400`). -/
def newProcessingRecord (now : Nat) : LedgerRecord :=
  { status := some "PROCESSING", ttl := some (now + 86400) }

/-- Body of the `try` block of `_check_and_update_idempotency` (lines
152–170): errors are `ClientError` codes, later inspected by the handler.
Returns the decision, the resulting table state for the key, and the
effect trace. -/
def idempotencyTryBody (env : LedgerEnv) :
    Except String (Bool × Option LedgerRecord) × List Effect :=
  match env.getRes with
  | .error c => (.error c, [.getItem])
  | .ok item =>
    if item.bind (·.status) = some "COMPLETED" then
      (.ok (false, env.atPut), [.getItem])
    else if item.bind (·.status) = some "PROCESSING" then
      (.ok (true, env.atPut), [.getItem])
    else
      match env.putFault with
      | some c =>
        (.error c, [.getItem, .putProcessing (newProcessingRecord env.now) false])
      | none =>
        match env.atPut with
        | some _ =>
          (.error "ConditionalCheckFailedException",
            [.getItem, .putProcessing (newProcessingRecord env.now) false])
        | none =>
          (.ok (true, some (newProcessingRecord env.now)),
            [.getItem, .putProcessing (newProcessingRecord env.now) true])

/-- `_check_and_update_idempotency`: the `try` body together with the
`except ClientError` handler (lines 172–177), which turns a
`ConditionalCheckFailedException` into the skip decision `False` and
re-raises every other `ClientError`. -/
def check_and_update_idempotency (env : LedgerEnv) :
    Except String (Bool × Option LedgerRecord) × List Effect :=
  match idempotencyTryBody env with
  | (.ok r, tr) => (.ok r, tr)
  | (.error c, tr) =>
    if c = "ConditionalCheckFailedException" then (.ok (false, env.atPut), tr)
    else (.error c, tr)

/-! ### Rounding (`round(x, 2)`)

Python `round` uses round-half-to-even; on the rational model this is
exact. -/

/-- Round-half-to-even to an integer. -/
def roundHalfEven (q : ℚ) : ℤ :=
  let fl := ⌊q⌋
  let fr := q - fl
  if fr < 1 / 2 then fl
  else if 1 / 2 < fr then fl + 1
  else if 2 ∣ fl then fl else fl + 1

/-- Python `round(q, 2)`. -/
def pyRound2 (q : ℚ) : ℚ :=
  (roundHalfEven (q * 100) : ℚ) / 100

/-- Round all four totals to two decimals, as done when building the sheet
row and the report row. -/
def round2Totals (t : MealTotals) : MealTotals :=
  { calories := pyRound2 t.calories, protein := pyRound2 t.protein
    carbs := pyRound2 t.carbs, fat := pyRound2 t.fat }

/-! ### Nutrition aggregation (`_calculate_meal_nutrition`, lines 197–241) -/

/-- One iteration of the `for nutrient in found_food.get('foodNutrients')`
loop (lines 227–239): the `if/elif` chain on the exact nutrient name, with
the `KCAL` unit check on `Energy` only. -/
def nutrientStep (weight : Nat) (t : MealTotals) (n : FoodNutrient) : MealTotals :=
  let value_per_gram := n.value.getD 0 / 100
  if n.nutrientName = some "Energy" ∧ pyUpper (n.unitName.getD "") = "KCAL" then
    { t with calories := t.calories + value_per_gram * weight }
  else if n.nutrientName = some "Protein" then
    { t with protein := t.protein + value_per_gram * weight }
  else if n.nutrientName = some "Carbohydrate, by difference" then
    { t with carbs := t.carbs + value_per_gram * weight }
  else if n.nutrientName = some "Total lipid (fat)" then
    { t with fat := t.fat + value_per_gram * weight }
  else t

/-- One iteration of the `for item in food_items` loop: skip falsy items,
parse the mention, skip zero weights, look the cleaned name up
(`get_nutrition_data`, modelled by the oracle `resolve`, which returns the
single selected food of the `{'foods': [selected_food]}` result or `None`)
and fold its nutrients into the totals. -/
def mealItemStep (resolve : String → Option Food)
    (acc : MealTotals × List Effect) (item : String) : MealTotals × List Effect :=
  if item = "" then acc
  else
    let parsed := parseMention item
    if parsed.2 = 0 then acc
    else
      let tr := acc.2 ++ [.lookup parsed.1]
      match resolve parsed.1 with
      | none => (acc.1, tr)
      | some food => (food.foodNutrients.foldl (nutrientStep parsed.2) acc.1, tr)

/-- `_calculate_meal_nutrition`: totals start at zero and the items are
processed in order.  Also returns the nutrition-lookup effect trace. -/
def calculate_meal_nutrition (food_items : List String)
    (resolve : String → Option Food) : MealTotals × List Effect :=
  food_items.foldl (mealItemStep resolve) (⟨0, 0, 0, 0⟩, [])

/-! ### Nutrition resolver (`get_nutrition_data`, lines 59–124) -/

/-- De-duplicate by `fdcId`, first occurrence wins (`seen_fdc_ids`). -/
def dedupFoods : List Food → List Nat → List Food
  | [], _ => []
  | f :: fs, seen =>
    if f.fdcId ∈ seen then dedupFoods fs seen
    else f :: dedupFoods fs (f.fdcId :: seen)

/-- The partition loop (lines 68–87): each of the three data-type queries
either yields a food list or fails with a `RequestException` (which is
logged and skipped); successes are concatenated in order and de-duplicated
by `fdcId`. -/
def mergePartitions (searchResults : List (Except Unit (List Food))) : List Food :=
  dedupFoods
    (searchResults.foldl
      (fun acc r => match r with | .ok fs => acc ++ fs | .error _ => acc) [])
    []

/-- Candidate selection (lines 108–118): `int(picker_response.text.strip())`
then `search_data['foods'][best_option_number - 1]` with Python indexing;
a `ValueError` or `IndexError` falls back to `search_data['foods'][0]`. -/
def pickSelected (all_foods : List Food) (pickerText : String) : Option Food :=
  match pyInt (pyStrip pickerText) with
  | some v =>
    match pyListGet all_foods (v - 1) with
    | some f => some f
    | none => all_foods.get? 0
  | none => all_foods.get? 0

/-- `get_nutrition_data` after the merge (lines 89–124): empty candidate
set returns `None`; otherwise the picker selects and the selected food
(the sole element of the returned `{'foods': [selected_food]}`) is
returned. -/
def get_nutrition_data (searchResults : List (Except Unit (List Food)))
    (pickerText : String) : Option Food :=
  if (mergePartitions searchResults).isEmpty then none
  else pickSelected (mergePartitions searchResults) pickerText

/-! ### Chat notification (`common/utils.py`, lines 32–46)

`send_telegram_message` posts the payload; on `RequestException` it logs
the failure and then executes `raise e`, re-raising the same exception to
its caller. -/

/-- `send_telegram_message` as a function of the HTTP post outcome. -/
def send_telegram_message (postRes : Except PyExc Unit) : Except PyExc Unit :=
  match postRes with
  | .ok _ => .ok ()
  | .error e => .error e

/-! ### Orchestrator (`process_meal_from_message`, lines 253–304) -/

/-- Python `str.split(';')`. -/
def splitSemiAux : List Char → List Char → List String
  | [], acc => [String.mk acc.reverse]
  | c :: cs, acc =>
    if c = ';' then String.mk acc.reverse :: splitSemiAux cs []
    else splitSemiAux cs (c :: acc)

/-- Python `s.split(';')`. -/
def pySplitSemi (s : String) : List String :=
  splitSemiAux s.data []

/-- Oracle data for one `process_meal_from_message` run: the outcome of
every external call in it. -/
structure Env where
  /-- Oracle for the idempotency check. -/
  ledger : LedgerEnv
  /-- `get_telegram_image`: image bytes or a raised request error. -/
  image : Except PyExc String
  /-- `analyze_image_with_gemini`: the response text, `ValueError` when the
  response is empty, or another API failure. -/
  vision : Except PyExc String
  /-- Result of `get_nutrition_data` per cleaned food name (`None` or the
  selected food). -/
  resolve : String → Option Food
  /-- Outcome of `send_telegram_message` per message (per `common/utils.py`
  it re-raises the post failure). -/
  sendRes : Msg → Except PyExc Unit
  /-- Outcome of `write_to_google_sheets`. -/
  sheet : Except PyExc Unit
  /-- Outcome of `table.update_item` setting status `COMPLETED`. -/
  update : Except PyExc Unit
  /-- `datetime.now(...)` formatted timestamp. -/
  nowStr : String

/-- `_get_food_items_from_image` (lines 179–195): the `try` covers the
vision call, the `NO_FOOD` branch and its notification; `except
ValueError` sends the "couldn't analyze" apology and returns `None`; any
other exception (including a notification failure) propagates. -/
def get_food_items_from_image (chat_id : Int) (env : Env) :
    Except PyExc (Option (List String)) × List Effect :=
  let inner : Except PyExc (Option (List String)) × List Effect :=
    match env.vision with
    | .error e => (.error e, [.vision])
    | .ok text =>
      if pyStrip text = "NO_FOOD" then
        match env.sendRes .noFood with
        | .ok _ => (.ok none, [.vision, .send chat_id .noFood])
        | .error e => (.error e, [.vision, .send chat_id .noFood])
      else
        (.ok (some ((pySplitSemi text).map pyStrip)), [.vision])
  match inner with
  | (.error .valueError, tr) =>
    match env.sendRes .cantAnalyze with
    | .ok _ => (.ok none, tr ++ [.send chat_id .cantAnalyze])
    | .error e => (.error e, tr ++ [.send chat_id .cantAnalyze])
  | r => r

/-- `process_meal_from_message`: ledger check with early return on skip,
image fetch, vision extraction (with the `NO_FOOD` completion branch),
aggregation, sheet append, result notification, ledger completion.  Every
uncaught exception aborts the run with the effects performed so far. -/
def process_meal_from_message (msg : MessageBody) (env : Env) :
    Except PyExc Unit × List Effect :=
  match check_and_update_idempotency env.ledger with
  | (.error c, tr) => (.error (.clientError c), tr)
  | (.ok (false, _), tr) => (.ok (), tr)
  | (.ok (true, _), tr) =>
    let tr := tr ++ [.getImage msg.file_id]
    match env.image with
    | .error e => (.error e, tr)
    | .ok _imageBytes =>
      match get_food_items_from_image msg.chat_id env with
      | (.error e, tr2) => (.error e, tr ++ tr2)
      | (.ok none, tr2) =>
        let tr := tr ++ tr2 ++ [.updateCompleted msg.idempotency_key]
        match env.update with
        | .error e => (.error e, tr)
        | .ok _ => (.ok (), tr)
      | (.ok (some food_items), tr2) =>
        match calculate_meal_nutrition food_items env.resolve with
        | (totals, tr3) =>
          let itemsText := String.intercalate ", " food_items
          let tr := tr ++ tr2 ++ tr3 ++
            [.appendSheet env.nowStr itemsText (round2Totals totals)]
          match env.sheet with
          | .error e => (.error e, tr)
          | .ok _ =>
            let tr := tr ++ [.send msg.chat_id (.result food_items totals)]
            match env.sendRes (.result food_items totals) with
            | .error e => (.error e, tr)
            | .ok _ =>
              let tr := tr ++ [.updateCompleted msg.idempotency_key]
              match env.update with
              | .error e => (.error e, tr)
              | .ok _ => (.ok (), tr)

/-- One iteration of the `for record in event['Records']` loop of
`lambda_handler` (lines 326–344): on any exception the handler best-effort
sends a generic apology to the body's `chat_id` (its own failure is caught
and only logged) and re-raises the original exception. -/
def lambda_handler_record (msg : MessageBody) (env : Env) :
    Except PyExc Unit × List Effect :=
  match process_meal_from_message msg env with
  | (.ok _, tr) => (.ok (), tr)
  | (.error e, tr) =>
    let tr := tr ++ [.send msg.chat_id .processingError]
    match env.sendRes .processingError with
    | .ok _ => (.error e, tr)
    | .error _ => (.error e, tr)

/-! ### Daily rollup (`reporter_lambda.py`) -/

/-- Python `float(s)` on a cell string: optional surrounding whitespace and
sign, then `digits`, `digits.digits`, `.digits` or `digits.`, with an
optional decimal exponent (`inf`/`nan` literals, not representable in `ℚ`
and never produced by the meal rows, are not modelled). `none` models
`ValueError`. -/
def pyExpPart : List Char → Option Int
  | [] => some 0
  | c :: t =>
    if c = 'e' ∨ c = 'E' then
      match t with
      | '+' :: u =>
        if !u.isEmpty && u.all Char.isDigit then some ((digitsVal u : Int)) else none
      | '-' :: u =>
        if !u.isEmpty && u.all Char.isDigit then some (-(digitsVal u : Int)) else none
      | u =>
        if !u.isEmpty && u.all Char.isDigit then some ((digitsVal u : Int)) else none
    else none

/-- Unsigned part of `float(s)`. -/
def pyFloatMag (cs : List Char) : Option ℚ :=
  let ds1 := cs.takeWhile Char.isDigit
  let r1 := cs.dropWhile Char.isDigit
  match r1 with
  | '.' :: r2 =>
    let ds2 := r2.takeWhile Char.isDigit
    let r3 := r2.dropWhile Char.isDigit
    if ds1.isEmpty && ds2.isEmpty then none
    else
      match pyExpPart r3 with
      | none => none
      | some e =>
        some (((digitsVal ds1 : ℚ) + (digitsVal ds2 : ℚ) / (10 : ℚ) ^ ds2.length)
          * (10 : ℚ) ^ e)
  | _ =>
    if ds1.isEmpty then none
    else
      match pyExpPart r1 with
      | none => none
      | some e => some ((digitsVal ds1 : ℚ) * (10 : ℚ) ^ e)

/-- Python `float(s)`. -/
def pyFloat (s : String) : Option ℚ :=
  match (pyStrip s).data with
  | '-' :: rest => (pyFloatMag rest).map Neg.neg
  | '+' :: rest => pyFloatMag rest
  | cs => pyFloatMag cs

/-- Python `row[0].split(' ')[0]`: the text before the first space. -/
def firstField (s : String) : String :=
  String.mk (s.data.takeWhile (fun c => c ≠ ' '))

/-- One iteration of the row loop of `calculate_daily_totals` (lines
78–91): empty rows are skipped; for a row whose date field equals
`today_str` the four cells are parsed and added *sequentially*, and the
first `IndexError`/`ValueError` aborts the row, keeping the additions
already performed. -/
def dailyRowStep (today_str : String) (t : MealTotals) (row : List String) : MealTotals :=
  if row.isEmpty then t
  else if firstField (row.headD "") = today_str then
    match (row.get? 2).bind pyFloat with
    | none => t
    | some c =>
      let t1 : MealTotals := { t with calories := t.calories + c }
      match (row.get? 3).bind pyFloat with
      | none => t1
      | some p =>
        let t2 : MealTotals := { t1 with protein := t1.protein + p }
        match (row.get? 4).bind pyFloat with
        | none => t2
        | some cb =>
          let t3 : MealTotals := { t2 with carbs := t2.carbs + cb }
          match (row.get? 5).bind pyFloat with
          | none => t3
          | some f => { t3 with fat := t3.fat + f }
  else t

/-- `calculate_daily_totals` (lines 71–93): totals start at zero, the first
row (header) is skipped, the rest are folded in order. -/
def calculate_daily_totals (sheet_values : List (List String))
    (today_str : String) : MealTotals :=
  (sheet_values.drop 1).foldl (dailyRowStep today_str) ⟨0, 0, 0, 0⟩

/-- The Telegram messages the reporter sends (its local
`send_telegram_message` logs failures and does not re-raise). -/
inductive RMsg
  /-- "No meals were logged today. No report generated." -/
  | nothingLogged
  /-- The daily summary message with the four rounded totals. -/
  | summary (date : String) (totals : MealTotals)
  /-- "Failed to generate daily nutrition report. Error: ..." -/
  | errorNote
deriving DecidableEq, Repr

/-- Observable side effects of one reporter run. -/
inductive ReporterEffect
  | readMeals
  | appendSummary (date : String) (totals : MealTotals)
  | sendMessage (msg : RMsg)
deriving DecidableEq, Repr

/-- The HTTP-style response dict the reporter handler returns. -/
structure HttpResp where
  statusCode : Nat
  body : String
deriving DecidableEq, Repr

/-- Oracle data for one reporter run. -/
structure ReporterEnv where
  /-- Result of reading `Meals!A:F` (`result.get('values', [])`). -/
  readRes : Except PyExc (List (List String))
  /-- Outcome of appending the summary row. -/
  appendRes : Except PyExc Unit
  /-- `datetime.now(...).strftime('%Y-%m-%d')`. -/
  todayStr : String
deriving Repr

/-- The reporter `lambda_handler` (lines 96–171): read the meal rows; when
the sheet is empty or header-only, send the "nothing logged" notification
and return 200 without computing totals or appending a row; otherwise
compute the daily totals, append the summary row, and send the summary.
Any exception is caught by the top-level handler, which best-effort sends
an error notification and returns 500.  The error-response bodies
interpolate the exception text; they are abstracted to a fixed string. -/
def reporter_lambda_handler (env : ReporterEnv) : HttpResp × List ReporterEffect :=
  match env.readRes with
  | .error _ =>
    (⟨500, "An error occurred."⟩, [.readMeals, .sendMessage .errorNote])
  | .ok values =>
    if values.length ≤ 1 then
      (⟨200, "Sheet was empty or had only a header."⟩,
        [.readMeals, .sendMessage .nothingLogged])
    else
      let t := calculate_daily_totals values env.todayStr
      let tr := [ReporterEffect.readMeals, .appendSummary env.todayStr (round2Totals t)]
      match env.appendRes with
      | .error _ => (⟨500, "An error occurred."⟩, tr ++ [.sendMessage .errorNote])
      | .ok _ =>
        (⟨200, "Report generated successfully."⟩,
          tr ++ [.sendMessage (.summary env.todayStr (round2Totals t))])

instance {ε α : Type} [DecidableEq ε] [DecidableEq α] : DecidableEq (Except ε α) :=
  fun x y =>
    match x, y with
    | .ok a, .ok b =>
      if h : a = b then isTrue (by rw [h]) else isFalse (fun hh => h (Except.ok.inj hh))
    | .error a, .error b =>
      if h : a = b then isTrue (by rw [h]) else isFalse (fun hh => h (Except.error.inj hh))
    | .ok _, .error _ => isFalse (fun hh => Except.noConfusion hh)
    | .error _, .ok _ => isFalse (fun hh => Except.noConfusion hh)

/-- Concrete environment for the C7 witness: fresh key, vision answers the
sentinel, all calls succeed. -/
def envNoFoodW : Env :=
  { ledger := ⟨.ok none, none, none, 0⟩, image := .ok "img",
    vision := .ok " NO_FOOD ", resolve := fun _ => none,
    sendRes := fun _ => .ok (), sheet := .ok (), update := .ok (), nowStr := "ts" }

/-- Concrete environment for the C8 witness: the image fetch raises and the
apology send itself fails too. -/
def envImgFailW : Env :=
  { ledger := ⟨.ok none, none, none, 0⟩, image := .error .requestException,
    vision := .ok "x", resolve := fun _ => none,
    sendRes := fun _ => .error .requestException, sheet := .ok (),
    update := .ok (), nowStr := "ts" }

/-- Concrete environment for C3: every step succeeds except the final
result notification, whose `send_telegram_message` re-raises the post
failure. -/
def envNotifyFailW : Env :=
  { ledger := ⟨.ok none, none, none, 0⟩, image := .ok "img",
    vision := .ok "Apple (100g)", resolve := fun _ => none,
    sendRes := fun m => match m with
      | .result _ _ => .error .requestException
      | _ => .ok (),
    sheet := .ok (), update := .ok (), nowStr := "ts" }

/-- The three-candidate list of the disambiguation examples. -/
def threeFoodsW : List Food := [⟨1, none, []⟩, ⟨2, none, []⟩, ⟨3, none, []⟩]

/-! ### Nutrition aggregation as a per-mention sum (C5)

Spec-side reformulation: each nutrient sample contributes
`value_per_100_units / 100 × weight_grams` to the total whose tracked
nutrient it matches by exact name (`Energy` only with unit `kilocalorie`,
i.e. `unitName.upper() == 'KCAL'`); a mention with zero parsed weight or
unresolved nutrition contributes nothing. -/

/-- Contribution of one nutrient sample to the calories total. -/
def energyContribution (weight : ℚ) (n : FoodNutrient) : ℚ :=
  if n.nutrientName = some "Energy" ∧ pyUpper (n.unitName.getD "") = "KCAL" then
    n.value.getD 0 / 100 * weight
  else 0

/-- Contribution of one nutrient sample to the protein total. -/
def proteinContribution (weight : ℚ) (n : FoodNutrient) : ℚ :=
  if n.nutrientName = some "Protein" then n.value.getD 0 / 100 * weight else 0

/-- Contribution of one nutrient sample to the carbs total. -/
def carbsContribution (weight : ℚ) (n : FoodNutrient) : ℚ :=
  if n.nutrientName = some "Carbohydrate, by difference" then
    n.value.getD 0 / 100 * weight
  else 0

/-- Contribution of one nutrient sample to the fat total. -/
def fatContribution (weight : ℚ) (n : FoodNutrient) : ℚ :=
  if n.nutrientName = some "Total lipid (fat)" then
    n.value.getD 0 / 100 * weight
  else 0

/-- Spec-side totals of one mention: zero when the parsed weight is zero or
the resolution is `None`, otherwise the sums of the per-sample
contributions. -/
def mentionTotals (resolve : String → Option Food) (item : String) : MealTotals :=
  if (parseMention item).2 = 0 then ⟨0, 0, 0, 0⟩
  else
    match resolve (parseMention item).1 with
    | none => ⟨0, 0, 0, 0⟩
    | some food =>
      ⟨(food.foodNutrients.map (energyContribution ((parseMention item).2 : ℚ))).sum,
        (food.foodNutrients.map (proteinContribution ((parseMention item).2 : ℚ))).sum,
        (food.foodNutrients.map (carbsContribution ((parseMention item).2 : ℚ))).sum,
        (food.foodNutrients.map (fatContribution ((parseMention item).2 : ℚ))).sum⟩

/-- C6's spec reading of the cleaned name: the raw text with the first
weight-annotation substring *removed* (rather than truncated at), then
stripped, then the leading numeric token dropped. -/
def cleanedNameSpec (item : String) : String :=
  match findWeightFrom item.data 0 with
  | none => dropLeadingNumericToken item
  | some (i, _w, len) =>
    dropLeadingNumericToken
      (pyStrip (String.mk (item.data.take i ++ item.data.drop (i + len))))

/-- Per-row contribution to the daily totals: the row's own sequential
additions starting from zero, stopping at the first cell that is missing
or fails to parse. -/
def rowContribution (today_str : String) (row : List String) : MealTotals :=
  dailyRowStep today_str ⟨0, 0, 0, 0⟩ row

/-! ## Theorems -/

example : parseMention "1 cooked chicken breast (170g)" = ("cooked chicken breast", 170) := by decide
example : parseMention "Broccoli florets (160g)" = ("Broccoli florets", 160) := by decide
example : parseMention "plain yogurt" = ("plain yogurt", 0) := by decide

/-- The check's outcome has one of three shapes: read-only trace, read plus
a failed conditional-put attempt, or a successful insert (in which case the
decision is proceed). -/
lemma check_shapes (env : LedgerEnv) :
    (check_and_update_idempotency env).2 = [Effect.getItem] ∨
    (check_and_update_idempotency env).2 =
      [Effect.getItem, Effect.putProcessing (newProcessingRecord env.now) false] ∨
    check_and_update_idempotency env =
      (.ok (true, some (newProcessingRecord env.now)),
        [Effect.getItem, Effect.putProcessing (newProcessingRecord env.now) true]) := by
  unfold check_and_update_idempotency idempotencyTryBody
  rcases hg : env.getRes with c | item
  · by_cases hc : c = "ConditionalCheckFailedException" <;> simp [hc]
  · by_cases hC : item.bind (·.status) = some "COMPLETED"
    · simp [hC]
    · by_cases hP : item.bind (·.status) = some "PROCESSING"
      · simp [hC, hP]
      · rcases hf : env.putFault with _ | c
        · rcases hp : env.atPut with _ | r
          · simp [hC, hP]
          · simp [hC, hP]
        · by_cases hc : c = "ConditionalCheckFailedException" <;> simp [hC, hP, hc]

/-- Every effect the idempotency check itself emits is the `get_item` read
or a conditional-put attempt. -/
lemma check_trace_mem (env : LedgerEnv) :
    ∀ e ∈ (check_and_update_idempotency env).2,
      e = Effect.getItem ∨ ∃ r b, e = Effect.putProcessing r b := by
  intro e he
  rcases check_shapes env with h | h | h
  · rw [h] at he
    simp at he
    simp [he]
  · rw [h] at he
    simp at he
    rcases he with he | he <;> simp [he]
  · rw [congrArg Prod.snd h] at he
    simp at he
    rcases he with he | he <;> simp [he]

/-- When the check decides to skip, its trace is the read plus (possibly) a
conditional-put attempt that wrote nothing. -/
lemma check_skip_trace (env : LedgerEnv) (t : Option LedgerRecord)
    (h : (check_and_update_idempotency env).1 = Except.ok (false, t)) :
    ∀ e ∈ (check_and_update_idempotency env).2,
      e = Effect.getItem ∨ ∃ r, e = Effect.putProcessing r false := by
  intro e he
  rcases check_shapes env with hs | hs | hs
  · rw [hs] at he
    simp at he
    simp [he]
  · rw [hs] at he
    simp at he
    rcases he with he | he <;> simp [he]
  · rw [congrArg Prod.fst hs] at h
    simp at h

/-- C1: on a fault-free run (`get_item` succeeds, the conditional put can
only fail with the conditional-check conflict), the check skips exactly
when the record is already `COMPLETED` or the conditional insert is lost
to a concurrently created record; when the key is absent everywhere it
proceeds after inserting a `PROCESSING` record with TTL `now + 86400`;
when the record is in `PROCESSING` it proceeds without writing anything. -/
theorem check_and_update_idempotency_spec (env : LedgerEnv)
    (atGet : Option LedgerRecord)
    (hget : env.getRes = .ok atGet) (hfault : env.putFault = none) :
    ((∃ t, (check_and_update_idempotency env).1 = .ok (false, t)) ↔
      (atGet.bind (·.status) = some "COMPLETED" ∨
        (atGet.bind (·.status) ≠ some "COMPLETED" ∧
         atGet.bind (·.status) ≠ some "PROCESSING" ∧ env.atPut.isSome))) ∧
    (atGet.bind (·.status) ≠ some "COMPLETED" →
      atGet.bind (·.status) ≠ some "PROCESSING" → env.atPut = none →
      check_and_update_idempotency env =
        (.ok (true, some (newProcessingRecord env.now)),
          [.getItem, .putProcessing (newProcessingRecord env.now) true])) ∧
    (atGet.bind (·.status) = some "PROCESSING" →
      check_and_update_idempotency env = (.ok (true, env.atPut), [.getItem])) := by
  unfold check_and_update_idempotency idempotencyTryBody
  rw [hget, hfault]
  by_cases hC : atGet.bind (·.status) = some "COMPLETED"
  · simp [hC]
  · by_cases hP : atGet.bind (·.status) = some "PROCESSING"
    · simp [hC, hP]
    · rcases hp : env.atPut with _ | r
      · simp [hC, hP]
      · simp [hC, hP]

/-- Witness for C1 at concrete inputs: a fresh key is inserted and
processing proceeds; a `COMPLETED` record skips. -/
theorem check_and_update_idempotency_spec_witness :
    check_and_update_idempotency ⟨.ok none, none, none, 5⟩ =
      (.ok (true, some (newProcessingRecord 5)),
        [.getItem, .putProcessing (newProcessingRecord 5) true]) ∧
    (∃ t, (check_and_update_idempotency
      ⟨.ok (some ⟨some "COMPLETED", none⟩), some ⟨some "COMPLETED", none⟩, none, 5⟩).1 =
        .ok (false, t)) := by
  refine ⟨(check_and_update_idempotency_spec ⟨.ok none, none, none, 5⟩ none rfl rfl).2.1
    (by decide) (by decide) rfl, ?_⟩
  exact (check_and_update_idempotency_spec
    ⟨.ok (some ⟨some "COMPLETED", none⟩), some ⟨some "COMPLETED", none⟩, none, 5⟩
    (some ⟨some "COMPLETED", none⟩) rfl rfl).1.mpr (Or.inl (by decide))

/-- C2: when the ledger check decides to skip, `process_meal_from_message`
returns normally and its whole trace is the check's own trace, which
consists only of the `get_item` read and possibly a conditional-put
attempt that wrote nothing: no image fetch, no vision call, no nutrition
lookup, no sheet append, no chat message, no ledger write. -/
theorem skip_means_no_side_effects (msg : MessageBody) (env : Env)
    (t : Option LedgerRecord)
    (hskip : (check_and_update_idempotency env.ledger).1 = .ok (false, t)) :
    process_meal_from_message msg env =
      (.ok (), (check_and_update_idempotency env.ledger).2) ∧
    ∀ e ∈ (check_and_update_idempotency env.ledger).2,
      e = Effect.getItem ∨ ∃ r, e = Effect.putProcessing r false := by
  refine ⟨?_, check_skip_trace env.ledger t hskip⟩
  unfold process_meal_from_message
  rcases hc : check_and_update_idempotency env.ledger with ⟨res, tr⟩
  rw [hc] at hskip
  simp at hskip
  simp [hskip]

/-- Witness for C2: a record already `COMPLETED` yields a normal return
with only the ledger read in the trace. -/
theorem skip_means_no_side_effects_witness :
    process_meal_from_message ⟨"k", 7, "f"⟩
      { ledger := ⟨.ok (some ⟨some "COMPLETED", none⟩), some ⟨some "COMPLETED", none⟩, none, 5⟩,
        image := .ok "img", vision := .ok "Apple (100g)",
        resolve := fun _ => none, sendRes := fun _ => .ok (),
        sheet := .ok (), update := .ok (), nowStr := "ts" } =
      (.ok (), [Effect.getItem]) := by
  exact (skip_means_no_side_effects ⟨"k", 7, "f"⟩ _ (some ⟨some "COMPLETED", none⟩)
    (by decide)).1.trans (by decide)

/-- A record whose status is already `COMPLETED` makes the check skip with
only the read in its trace. -/
lemma check_completed (env : LedgerEnv) (r : LedgerRecord)
    (hget : env.getRes = .ok (some r)) (hr : r.status = some "COMPLETED") :
    check_and_update_idempotency env = (.ok (false, env.atPut), [Effect.getItem]) := by
  unfold check_and_update_idempotency idempotencyTryBody
  rw [hget]
  simp [hr]

/-- C7: when the vision call returns the `NO_FOOD` sentinel (after
stripping) and the notification and ledger update succeed, the run returns
normally after exactly: ledger check, image fetch, vision call, the fixed
"no food" message, and the ledger `COMPLETED` update — in particular no
sheet row is appended; and a redelivery whose ledger read finds the
`COMPLETED` record short-circuits with no further action. -/
theorem no_food_path_spec (msg : MessageBody) (env : Env)
    (t : Option LedgerRecord) (s img : String)
    (hcheck : (check_and_update_idempotency env.ledger).1 = .ok (true, t))
    (himg : env.image = .ok img)
    (hvision : env.vision = .ok s)
    (hs : pyStrip s = "NO_FOOD")
    (hsend : env.sendRes .noFood = .ok ())
    (hupd : env.update = .ok ()) :
    process_meal_from_message msg env =
      (.ok (), (check_and_update_idempotency env.ledger).2 ++
        [Effect.getImage msg.file_id, Effect.vision, Effect.send msg.chat_id .noFood,
          Effect.updateCompleted msg.idempotency_key]) ∧
    (∀ e ∈ (process_meal_from_message msg env).2,
      ∀ ts it tot, e ≠ Effect.appendSheet ts it tot) ∧
    (∀ env2 : Env, ∀ r : LedgerRecord, env2.ledger.getRes = .ok (some r) →
      r.status = some "COMPLETED" →
      process_meal_from_message msg env2 = (.ok (), [Effect.getItem])) := by
  have hfood : get_food_items_from_image msg.chat_id env =
      (.ok none, [Effect.vision, Effect.send msg.chat_id .noFood]) := by
    unfold get_food_items_from_image
    rw [hvision]
    simp [hs, hsend]
  have h1 : process_meal_from_message msg env =
      (.ok (), (check_and_update_idempotency env.ledger).2 ++
        [Effect.getImage msg.file_id, Effect.vision, Effect.send msg.chat_id .noFood,
          Effect.updateCompleted msg.idempotency_key]) := by
    unfold process_meal_from_message
    rcases hc : check_and_update_idempotency env.ledger with ⟨res, tr⟩
    rw [hc] at hcheck
    simp at hcheck
    subst hcheck
    simp [himg, hfood, hupd]
  refine ⟨h1, ?_, ?_⟩
  · intro e he ts it tot
    rw [congrArg Prod.snd h1] at he
    simp at he
    rcases he with he | he
    · rcases check_trace_mem env.ledger e he with h | ⟨r, b, h⟩ <;> simp [h]
    · rcases he with he | he | he | he <;> simp [he]
  · intro env2 r hget hr
    unfold process_meal_from_message
    rw [check_completed env2.ledger r hget hr]

/-- Witness for C7 at a concrete run. -/
theorem no_food_path_spec_witness :
    process_meal_from_message ⟨"k", 7, "f"⟩ envNoFoodW =
      (.ok (), [Effect.getItem, Effect.putProcessing (newProcessingRecord 0) true,
        Effect.getImage "f", Effect.vision, Effect.send 7 .noFood,
        Effect.updateCompleted "k"]) := by
  exact ((no_food_path_spec ⟨"k", 7, "f"⟩ envNoFoodW (some (newProcessingRecord 0))
    " NO_FOOD " "img" (by decide) rfl rfl (by decide) rfl rfl).1).trans (by decide)

/-- C8: whatever exception aborts `process_meal_from_message`, the record
handler re-raises exactly that exception after best-effort sending the
generic apology; the apology outcome (part of the arbitrary environment)
can neither mask nor replace the original error. -/
theorem handler_reraises_with_apology (msg : MessageBody) (env : Env) (e : PyExc)
    (herr : (process_meal_from_message msg env).1 = .error e) :
    (lambda_handler_record msg env).1 = .error e ∧
    (lambda_handler_record msg env).2 =
      (process_meal_from_message msg env).2 ++
        [Effect.send msg.chat_id .processingError] := by
  unfold lambda_handler_record
  rcases hp : process_meal_from_message msg env with ⟨res, tr⟩
  rw [hp] at herr
  simp at herr
  subst herr
  rcases ha : env.sendRes .processingError with u | e2 <;> simp [ha]

/-- Witness for C8: an image-fetch failure propagates out of the handler
even though the apology send also fails. -/
theorem handler_reraises_with_apology_witness :
    (lambda_handler_record ⟨"k", 7, "f"⟩ envImgFailW).1 = .error .requestException ∧
    (lambda_handler_record ⟨"k", 7, "f"⟩ envImgFailW).2 =
      [Effect.getItem, Effect.putProcessing (newProcessingRecord 0) true,
        Effect.getImage "f", Effect.send 7 .processingError] := by
  have h := handler_reraises_with_apology ⟨"k", 7, "f"⟩ envImgFailW .requestException
    (by decide)
  exact ⟨h.1, h.2.trans (by decide)⟩

/-- C3 counterexample: a failed chat notification *does* fail the
WorkItem — the shared-layer `send_telegram_message` re-raises the
`RequestException` (utils.py line 46), `process_meal_from_message` aborts
with it, and the queue handler re-raises it, so the run is an error, not a
normal return. -/
theorem notify_failure_fails_workitem_cex :
    (process_meal_from_message ⟨"k", 7, "f"⟩ envNotifyFailW).1 =
      .error .requestException ∧
    (lambda_handler_record ⟨"k", 7, "f"⟩ envNotifyFailW).1 =
      .error .requestException := by
  constructor <;> decide

/-- C3 as amended: `send_telegram_message` logs a post failure and then
re-raises it; consequently a failed result notification aborts the
WorkItem with exactly that exception (so the queue redelivers it), and the
best-effort apology in the error handler — whose outcome is part of the
arbitrary environment — cannot mask or replace it. -/
theorem notify_failure_logged_and_reraised (msg : MessageBody) (env : Env)
    (t : Option LedgerRecord) (s img : String) (e : PyExc)
    (hcheck : (check_and_update_idempotency env.ledger).1 = .ok (true, t))
    (himg : env.image = .ok img)
    (hvision : env.vision = .ok s)
    (hs : pyStrip s ≠ "NO_FOOD")
    (hsheet : env.sheet = .ok ())
    (hsend : env.sendRes (.result ((pySplitSemi s).map pyStrip)
        (calculate_meal_nutrition ((pySplitSemi s).map pyStrip) env.resolve).1) =
      .error e) :
    (∀ e2 : PyExc, send_telegram_message (.error e2) = .error e2) ∧
    (process_meal_from_message msg env).1 = .error e ∧
    (lambda_handler_record msg env).1 = .error e := by
  have hfood : get_food_items_from_image msg.chat_id env =
      (.ok (some ((pySplitSemi s).map pyStrip)), [Effect.vision]) := by
    unfold get_food_items_from_image
    rw [hvision]
    simp [hs]
  have hp : (process_meal_from_message msg env).1 = .error e := by
    unfold process_meal_from_message
    rcases hc : check_and_update_idempotency env.ledger with ⟨res, tr⟩
    rw [hc] at hcheck
    simp at hcheck
    subst hcheck
    rcases hn : calculate_meal_nutrition ((pySplitSemi s).map pyStrip) env.resolve
      with ⟨totals, tr3⟩
    rw [hn] at hsend
    simp at hsend
    simp [himg, hfood, hn, hsheet, hsend]
  refine ⟨fun e2 => rfl, hp, ?_⟩
  unfold lambda_handler_record
  rcases hq : process_meal_from_message msg env with ⟨res, tr⟩
  rw [hq] at hp
  simp at hp
  subst hp
  rcases ha : env.sendRes .processingError with u | e2 <;> simp [ha]

/-- Witness for the amended C3 at the concrete run. -/
theorem notify_failure_logged_and_reraised_witness :
    (lambda_handler_record ⟨"k", 7, "f"⟩ envNotifyFailW).1 =
      .error .requestException := by
  exact (notify_failure_logged_and_reraised ⟨"k", 7, "f"⟩ envNotifyFailW
    (some (newProcessingRecord 0)) "Apple (100g)" "img" .requestException
    (by decide) rfl rfl (by decide) rfl rfl).2.2

/-- C4 counterexample: with three candidates, picker output `"0"` parses to
the integer `0`, which is outside `[1, 3]`, yet Python's negative indexing
(`foods[-1]`) selects candidate #3, not candidate #1. -/
theorem picker_out_of_range_cex :
    get_nutrition_data [.ok [⟨1, none, []⟩, ⟨2, none, []⟩, ⟨3, none, []⟩]] "0" =
      some ⟨3, none, []⟩ ∧
    (some (⟨3, none, []⟩ : Food) ≠ some (⟨1, none, []⟩ : Food)) := by decide

/-- C4 as amended: with a non-empty merged candidate list of length `n`, a
picker output that does not parse as an integer, or parses to `v` with
`v > n` or `v < 1 - n` (an `IndexError`), deterministically selects
candidate #1; `v` in `[1 - n, 0]` selects candidate `n + v` by Python's
negative indexing; `v` in `[1, n]` selects candidate `v`. -/
theorem picker_fallback_amended (searchResults : List (Except Unit (List Food)))
    (pickerText : String) (hne : mergePartitions searchResults ≠ []) :
    (pyInt (pyStrip pickerText) = none →
      get_nutrition_data searchResults pickerText =
        (mergePartitions searchResults).get? 0) ∧
    (∀ v : Int, pyInt (pyStrip pickerText) = some v →
      (v < 1 - ((mergePartitions searchResults).length : Int) ∨
        ((mergePartitions searchResults).length : Int) < v) →
      get_nutrition_data searchResults pickerText =
        (mergePartitions searchResults).get? 0) ∧
    (∀ v : Int, pyInt (pyStrip pickerText) = some v →
      1 - ((mergePartitions searchResults).length : Int) ≤ v → v ≤ 0 →
      get_nutrition_data searchResults pickerText =
        (mergePartitions searchResults).get?
          (((mergePartitions searchResults).length : Int) + (v - 1)).toNat) ∧
    (∀ v : Int, pyInt (pyStrip pickerText) = some v →
      1 ≤ v → v ≤ ((mergePartitions searchResults).length : Int) →
      get_nutrition_data searchResults pickerText =
        (mergePartitions searchResults).get? (v - 1).toNat) := by
  have hemp : (mergePartitions searchResults).isEmpty = false := by
    simpa [List.isEmpty_iff] using hne
  have hn0 : 0 < (mergePartitions searchResults).length :=
    List.length_pos.mpr hne
  refine ⟨?_, ?_, ?_, ?_⟩
  · intro hparse
    unfold get_nutrition_data pickSelected
    rw [if_neg (by simp [hemp])]
    simp only [hparse]
  · intro v hparse hout
    have hnone : pyListGet (mergePartitions searchResults) (v - 1) = none := by
      unfold pyListGet
      rcases hout with hout | hout
      · rw [if_neg (by omega), if_neg (by omega)]
      · rw [if_pos (by omega)]
        exact List.get?_eq_none.mpr (by omega)
    unfold get_nutrition_data pickSelected
    rw [if_neg (by simp [hemp])]
    simp only [hparse]
    rw [hnone]
  · intro v hparse hlo hhi
    rcases hg : (mergePartitions searchResults).get?
        (((mergePartitions searchResults).length : Int) + (v - 1)).toNat with _ | f
    · exact absurd (List.get?_eq_none.mp hg) (by omega)
    · have hsome : pyListGet (mergePartitions searchResults) (v - 1) = some f := by
        unfold pyListGet
        rw [if_neg (by omega), if_pos (by omega)]
        exact hg
      unfold get_nutrition_data pickSelected
      rw [if_neg (by simp [hemp])]
      simp only [hparse]
      rw [hsome]
  · intro v hparse hlo hhi
    rcases hg : (mergePartitions searchResults).get? (v - 1).toNat with _ | f
    · exact absurd (List.get?_eq_none.mp hg) (by omega)
    · have hsome : pyListGet (mergePartitions searchResults) (v - 1) = some f := by
        unfold pyListGet
        rw [if_pos (by omega)]
        exact hg
      unfold get_nutrition_data pickSelected
      rw [if_neg (by simp [hemp])]
      simp only [hparse]
      rw [hsome]

/-- Witness for the amended C4: `"abc"` and `"99"` with three candidates
both select candidate #1. -/
theorem picker_fallback_amended_witness :
    get_nutrition_data [.ok threeFoodsW] "abc" = some ⟨1, none, []⟩ ∧
    get_nutrition_data [.ok threeFoodsW] "99" = some ⟨1, none, []⟩ := by
  constructor
  · exact ((picker_fallback_amended [.ok threeFoodsW] "abc" (by decide)).1
      (by decide)).trans (by decide)
  · exact ((picker_fallback_amended [.ok threeFoodsW] "99" (by decide)).2.1 99
      (by decide) (by decide)).trans (by decide)

/-- One step of the nutrient loop adds exactly the four per-sample
contributions. -/
lemma nutrientStep_eq (w : Nat) (t : MealTotals) (n : FoodNutrient) :
    nutrientStep w t n =
      ⟨t.calories + energyContribution (w : ℚ) n,
        t.protein + proteinContribution (w : ℚ) n,
        t.carbs + carbsContribution (w : ℚ) n,
        t.fat + fatContribution (w : ℚ) n⟩ := by
  obtain ⟨tc, tp, tcb, tf⟩ := t
  unfold nutrientStep energyContribution proteinContribution carbsContribution
    fatContribution
  split_ifs <;> simp_all

/-- Folding the nutrient loop over a sample list adds the four contribution
sums. -/
lemma foldl_nutrientStep (w : Nat) (ns : List FoodNutrient) (t : MealTotals) :
    ns.foldl (nutrientStep w) t =
      ⟨t.calories + (ns.map (energyContribution (w : ℚ))).sum,
        t.protein + (ns.map (proteinContribution (w : ℚ))).sum,
        t.carbs + (ns.map (carbsContribution (w : ℚ))).sum,
        t.fat + (ns.map (fatContribution (w : ℚ))).sum⟩ := by
  induction ns generalizing t with
  | nil => simp
  | cons n ns ih =>
    rw [List.foldl_cons, nutrientStep_eq, ih]
    simp [add_assoc]

/-- One step of the item loop adds exactly the mention's spec-side totals. -/
lemma mealItemStep_eq (resolve : String → Option Food)
    (acc : MealTotals × List Effect) (item : String) :
    (mealItemStep resolve acc item).1 =
      ⟨acc.1.calories + (mentionTotals resolve item).calories,
        acc.1.protein + (mentionTotals resolve item).protein,
        acc.1.carbs + (mentionTotals resolve item).carbs,
        acc.1.fat + (mentionTotals resolve item).fat⟩ := by
  unfold mealItemStep mentionTotals
  by_cases h0 : item = ""
  · subst h0
    simp [show (parseMention "").2 = 0 from rfl]
  · by_cases hw : (parseMention item).2 = 0
    · simp [h0, hw]
    · rcases hr : resolve (parseMention item).1 with _ | food
      · simp [h0, hw, hr]
      · simp [h0, hw, hr, foldl_nutrientStep]

/-- Folding the item loop adds the per-mention sums. -/
lemma foldl_mealItemStep (resolve : String → Option Food) (items : List String)
    (acc : MealTotals × List Effect) :
    (items.foldl (mealItemStep resolve) acc).1 =
      ⟨acc.1.calories + (items.map (fun i => (mentionTotals resolve i).calories)).sum,
        acc.1.protein + (items.map (fun i => (mentionTotals resolve i).protein)).sum,
        acc.1.carbs + (items.map (fun i => (mentionTotals resolve i).carbs)).sum,
        acc.1.fat + (items.map (fun i => (mentionTotals resolve i).fat)).sum⟩ := by
  induction items generalizing acc with
  | nil => simp
  | cons i is ih =>
    rw [List.foldl_cons, ih, mealItemStep_eq]
    simp [add_assoc]

/-- C5: the totals `_calculate_meal_nutrition` accumulates equal, field by
field, the sum over all mentions of the spec-side per-mention
contributions — `Energy` samples (with unit `KCAL`) into calories,
`Protein` into protein, `Carbohydrate, by difference` into carbs, `Total
lipid (fat)` into fat, each weighted `value/100 × weight`, with
zero-weight and unresolved mentions contributing nothing and all other
nutrient names ignored. -/
theorem meal_totals_eq_sum (food_items : List String)
    (resolve : String → Option Food) :
    (calculate_meal_nutrition food_items resolve).1 =
      ⟨(food_items.map (fun i => (mentionTotals resolve i).calories)).sum,
        (food_items.map (fun i => (mentionTotals resolve i).protein)).sum,
        (food_items.map (fun i => (mentionTotals resolve i).carbs)).sum,
        (food_items.map (fun i => (mentionTotals resolve i).fat)).sum⟩ := by
  unfold calculate_meal_nutrition
  rw [foldl_mealItemStep]
  simp

set_option maxRecDepth 40000 in
example :
    (calculate_meal_nutrition ["chicken breast (170g)", "broccoli (160g)"]
      (fun name =>
        if name = "chicken breast" then
          some ⟨1, none, [⟨some "Energy", some 165, some "KCAL"⟩,
            ⟨some "Protein", some 31, some "G"⟩]⟩
        else if name = "broccoli" then
          some ⟨2, none, [⟨some "Energy", some 35, some "KCAL"⟩]⟩
        else none)).1 =
      ⟨6730 / 20, 527 / 10, 0, 0⟩ := by
  with_unfolding_all decide

/-- C6 counterexample: when text follows the weight annotation the code
keeps only the text *before* the annotation, not the text with the
annotation stripped out. -/
theorem cleaned_name_strip_cex :
    (parseMention "Tuna (100g) in water").1 = "Tuna" ∧
    cleanedNameSpec "Tuna (100g) in water" = "Tuna  in water" ∧
    (parseMention "Tuna (100g) in water").1 ≠
      cleanedNameSpec "Tuna (100g) in water" := by
  refine ⟨by decide, by decide, by decide⟩

/-- C6 as amended: the weight is the integer of the first `(<digits>g)`
pattern, `0` when absent; the cleaned name is the text *before* that first
pattern, stripped, with a leading purely-numeric token dropped; when the
pattern ends the mention this agrees with the "annotation stripped"
reading, and the two spec examples parse as stated. -/
theorem parse_mention_amended :
    (∀ item : String, findWeightFrom item.data 0 = none →
      parseMention item = (dropLeadingNumericToken item, 0)) ∧
    (∀ item : String, ∀ i w len : Nat,
      findWeightFrom item.data 0 = some (i, w, len) →
      parseMention item =
        (dropLeadingNumericToken (pyStrip (String.mk (item.data.take i))), w)) ∧
    (∀ item : String, ∀ i w len : Nat,
      findWeightFrom item.data 0 = some (i, w, len) →
      item.data.drop (i + len) = [] →
      (parseMention item).1 = cleanedNameSpec item) ∧
    parseMention "1 cooked chicken breast (170g)" = ("cooked chicken breast", 170) ∧
    parseMention "Broccoli florets (160g)" = ("Broccoli florets", 160) := by
  refine ⟨?_, ?_, ?_, by decide, by decide⟩
  · intro item h
    unfold parseMention
    rw [h]
  · intro item i w len h
    unfold parseMention
    rw [h]
  · intro item i w len h hend
    unfold parseMention cleanedNameSpec
    simp only [h]
    rw [hend, List.append_nil]

/-- Witness for the amended C6 at a concrete mention ending in its weight
annotation. -/
theorem parse_mention_amended_witness :
    parseMention "Tuna (100g)" = ("Tuna", 100) ∧
    (parseMention "Tuna (100g)").1 = cleanedNameSpec "Tuna (100g)" := by
  constructor
  · exact (parse_mention_amended.2.1 "Tuna (100g)" 5 100 6 (by decide)).trans (by decide)
  · exact parse_mention_amended.2.2.1 "Tuna (100g)" 5 100 6 (by decide) (by decide)

/-- C9: when the meals read returns no rows or a single (header) row, the
reporter returns 200 with the "empty sheet" body after exactly the read
and the "nothing logged" notification — in particular it appends no
summary row and computes no totals. -/
theorem rollup_empty_sheet_spec (env : ReporterEnv) (values : List (List String))
    (hread : env.readRes = .ok values) (hempty : values.length ≤ 1) :
    reporter_lambda_handler env =
      (⟨200, "Sheet was empty or had only a header."⟩,
        [.readMeals, .sendMessage .nothingLogged]) ∧
    ∀ e ∈ (reporter_lambda_handler env).2, ∀ d t,
      e ≠ ReporterEffect.appendSummary d t := by
  have h1 : reporter_lambda_handler env =
      (⟨200, "Sheet was empty or had only a header."⟩,
        [.readMeals, .sendMessage .nothingLogged]) := by
    unfold reporter_lambda_handler
    simp only [hread]
    rw [if_pos hempty]
  refine ⟨h1, ?_⟩
  intro e he d t
  rw [congrArg Prod.snd h1] at he
  simp at he
  rcases he with he | he <;> simp [he]

/-- Witness for C9 with a header-only sheet. -/
theorem rollup_empty_sheet_spec_witness :
    reporter_lambda_handler ⟨.ok [["Date", "Items"]], .ok (), "2024-01-01"⟩ =
      (⟨200, "Sheet was empty or had only a header."⟩,
        [.readMeals, .sendMessage .nothingLogged]) :=
  (rollup_empty_sheet_spec ⟨.ok [["Date", "Items"]], .ok (), "2024-01-01"⟩
    [["Date", "Items"]] rfl (by decide)).1

/-- One step of the reporter's row loop adds exactly the row's own
contribution. -/
lemma dailyRowStep_eq (today_str : String) (t : MealTotals) (row : List String) :
    dailyRowStep today_str t row =
      ⟨t.calories + (rowContribution today_str row).calories,
        t.protein + (rowContribution today_str row).protein,
        t.carbs + (rowContribution today_str row).carbs,
        t.fat + (rowContribution today_str row).fat⟩ := by
  obtain ⟨tc, tp, tcb, tf⟩ := t
  unfold rowContribution dailyRowStep
  by_cases h0 : row.isEmpty
  · rw [if_pos h0, if_pos h0]
    simp
  · rw [if_neg h0, if_neg h0]
    by_cases hd : firstField (row.headD "") = today_str
    · rw [if_pos hd, if_pos hd]
      rcases h2 : (row.get? 2).bind pyFloat with _ | c
      · simp
      · rcases h3 : (row.get? 3).bind pyFloat with _ | p
        · simp
        · rcases h4 : (row.get? 4).bind pyFloat with _ | cb
          · simp
          · rcases h5 : (row.get? 5).bind pyFloat with _ | f
            · simp
            · simp
    · rw [if_neg hd, if_neg hd]
      simp

/-- Folding the row loop adds the per-row contribution sums. -/
lemma foldl_dailyRowStep (today_str : String) (rows : List (List String))
    (t : MealTotals) :
    rows.foldl (dailyRowStep today_str) t =
      ⟨t.calories + (rows.map (fun r => (rowContribution today_str r).calories)).sum,
        t.protein + (rows.map (fun r => (rowContribution today_str r).protein)).sum,
        t.carbs + (rows.map (fun r => (rowContribution today_str r).carbs)).sum,
        t.fat + (rows.map (fun r => (rowContribution today_str r).fat)).sum⟩ := by
  induction rows generalizing t with
  | nil => simp
  | cons r rs ih =>
    rw [List.foldl_cons, dailyRowStep_eq, ih]
    simp [add_assoc]

set_option maxRecDepth 200000 in
/-- C10 counterexample: a date-matching row whose calories cell parses but
whose protein cell does not contributes its calories before the failure
aborts the row — it does not contribute "nothing". -/
theorem daily_totals_partial_row_cex :
    calculate_daily_totals
      [["Date"], ["2024-01-01 09:00", "eggs", "100", "abc", "1", "2"]]
      "2024-01-01" = ⟨100, 0, 0, 0⟩ ∧ (100 : ℚ) ≠ 0 := by
  with_unfolding_all decide

/-- C10 as amended: `calculate_daily_totals` is a total function of the
row list; the first row is always skipped as a header; each remaining row
contributes independently; an empty row or a row whose date field (text
before the first space of its first cell) differs from the target
contributes nothing; a row whose cells fail to parse contributes the cells
parsed *before* the first missing/unparsable cell, in the order calories,
protein, carbs, fat (rather than nothing); a fully parsable matching row
contributes all four cells. -/
theorem daily_totals_amended (sheet_values : List (List String))
    (today_str : String) :
    (calculate_daily_totals sheet_values today_str =
      ⟨((sheet_values.drop 1).map
          (fun r => (rowContribution today_str r).calories)).sum,
        ((sheet_values.drop 1).map
          (fun r => (rowContribution today_str r).protein)).sum,
        ((sheet_values.drop 1).map
          (fun r => (rowContribution today_str r).carbs)).sum,
        ((sheet_values.drop 1).map
          (fun r => (rowContribution today_str r).fat)).sum⟩) ∧
    (∀ row : List String, row = [] →
      rowContribution today_str row = ⟨0, 0, 0, 0⟩) ∧
    (∀ row : List String, firstField (row.headD "") ≠ today_str →
      rowContribution today_str row = ⟨0, 0, 0, 0⟩) ∧
    (∀ row : List String, (row.get? 2).bind pyFloat = none →
      rowContribution today_str row = ⟨0, 0, 0, 0⟩) ∧
    (∀ row : List String, ∀ c : ℚ, firstField (row.headD "") = today_str →
      row ≠ [] → (row.get? 2).bind pyFloat = some c →
      (row.get? 3).bind pyFloat = none →
      rowContribution today_str row = ⟨c, 0, 0, 0⟩) ∧
    (∀ row : List String, ∀ c p cb f : ℚ,
      firstField (row.headD "") = today_str → row ≠ [] →
      (row.get? 2).bind pyFloat = some c →
      (row.get? 3).bind pyFloat = some p →
      (row.get? 4).bind pyFloat = some cb →
      (row.get? 5).bind pyFloat = some f →
      rowContribution today_str row = ⟨c, p, cb, f⟩) := by
  refine ⟨?_, ?_, ?_, ?_, ?_, ?_⟩
  · unfold calculate_daily_totals
    rw [foldl_dailyRowStep]
    simp
  · intro row h
    subst h
    rfl
  · intro row hd
    unfold rowContribution dailyRowStep
    by_cases h0 : row.isEmpty
    · rw [if_pos h0]
    · rw [if_neg h0, if_neg hd]
  · intro row h2
    unfold rowContribution dailyRowStep
    by_cases h0 : row.isEmpty
    · rw [if_pos h0]
    · rw [if_neg h0]
      by_cases hd : firstField (row.headD "") = today_str
      · rw [if_pos hd]
        simp only [h2]
      · rw [if_neg hd]
  · intro row c hd hne h2 h3
    have h0 : ¬(row.isEmpty = true) := fun h => hne (List.isEmpty_iff.mp h)
    unfold rowContribution dailyRowStep
    rw [if_neg h0, if_pos hd]
    simp only [h2, h3]
    simp
  · intro row c p cb f hd hne h2 h3 h4 h5
    have h0 : ¬(row.isEmpty = true) := fun h => hne (List.isEmpty_iff.mp h)
    unfold rowContribution dailyRowStep
    rw [if_neg h0, if_pos hd]
    simp only [h2, h3, h4, h5]
    simp

set_option maxRecDepth 200000 in
/-- Witness for the amended C10 at the concrete partially-parsable row. -/
theorem daily_totals_amended_witness :
    rowContribution "2024-01-01"
      ["2024-01-01 09:00", "eggs", "100", "abc", "1", "2"] = ⟨100, 0, 0, 0⟩ := by
  exact (daily_totals_amended [] "2024-01-01").2.2.2.2.1
    ["2024-01-01 09:00", "eggs", "100", "abc", "1", "2"] 100
    (by decide) (by decide) (by with_unfolding_all decide)
    (by with_unfolding_all decide)

end NutritionTracker

